import Mathlib

/-!
Verification of the vtki/pyvista plotting wrapper.

The repository consists of `vtki/qt_plotting.py` (a small Qt subclass
wiring a VTK render-window interactor into a Qt widget) and
`tests/test_plotting.py` (tests of the pyvista plotting layer). The
definitions below embed the Python module shallowly: module import
effects become pure functions of import outcomes, `__init__` becomes a
state transformer returning `Except`, and the validation helpers of the
pyvista plotting layer (whose implementation is not part of this
repository) are modelled from the specification where so noted.
-/

namespace Vtki

/-- How a module-level name ends up bound after the import dance at the
top of `vtki/qt_plotting.py`: either still the dummy fallback defined
before the `try:` block, or the real imported object. -/
inductive Binding where
  | dummy
  | real
deriving DecidableEq, Repr

/-- The module-level state of `vtki.qt_plotting` after its top-level code
has run: the `has_pyqt` flag and the bindings of the two names that the
`try:` block may rebind. -/
structure QtModuleState where
  has_pyqt : Bool
  pyqtSignal : Binding
  qvtkRWI : Binding
deriving DecidableEq, Repr

/-- Embedding of lines 15-28 of `vtki/qt_plotting.py`. The module first
binds `has_pyqt = False` and the two dummy fallbacks, then runs

    try:
        from PyQt5.QtCore import pyqtSignal
        from vtk.qt.QVTKRenderWindowInteractor import QVTKRenderWindowInteractor
        has_pyqt = True
    except:
        pass

`pyqt5_ok` is whether the first import statement succeeds, `vtkqt_ok`
whether the second does; the bare `except` swallows any failure, so the
statements before the failing one keep their effects. -/
def qt_module_init (pyqt5_ok vtkqt_ok : Bool) : QtModuleState :=
  let s0 : QtModuleState := ⟨false, Binding.dummy, Binding.dummy⟩
  if pyqt5_ok then
    let s1 := { s0 with pyqtSignal := Binding.real }
    if vtkqt_ok then
      { s1 with qvtkRWI := Binding.real, has_pyqt := true }
    else
      s1
  else
    s0

/-- The base classes of `QtInteractor`, in declaration order
(`class QtInteractor(QVTKRenderWindowInteractor, BasePlotter)`). -/
def QtInteractor_bases : List String :=
  ["QVTKRenderWindowInteractor", "BasePlotter"]

/-- The external objects `QtInteractor.__init__` reads: the render window
returned by the Qt widget's `GetRenderWindow()`, the interactor that
window returns from `GetInteractor()`, the `self.renderer` created by
`BasePlotter`, and the value of `plotParams['background']`. Render
windows, interactors and renderers are identified by opaque ids. -/
structure QtEnv where
  widget_render_window : Nat
  window_interactor : Nat
  base_renderer : Nat
  plotParams_background : String

/-- The attributes of a `QtInteractor` instance that `__init__` writes,
together with the side effects it performs on the VTK objects. -/
structure QtInteractorState where
  ren_win : Option Nat
  ren_win_renderers : List Nat
  iren : Option Nat
  background_color : Option String
  mouse_move_observers_removed : Bool
  iren_started : Bool
  interactor_style : Option String
  axes_added : Bool
deriving DecidableEq, Repr

/-- The state of a freshly allocated instance before `__init__` runs:
nothing wired yet. -/
def QtInteractorState.fresh : QtInteractorState :=
  ⟨none, [], none, none, false, false, none, false⟩

/-- Embedding of `QtInteractor.__init__` (lines 39-57 of
`vtki/qt_plotting.py`). The first statement is `assert has_pyqt,
'Requires PyQt5'`; when the assertion passes, the method stores the
widget's render window as `self.ren_win`, adds `self.renderer` to it,
stores the window's interactor as `self.iren`, sets
`self.background_color` from `plotParams['background']`, removes the
`MouseMoveEvent` observers, calls `self.iren.Initialize()`, installs a
`vtkInteractorStyleTrackballCamera` style and calls `self.add_axes()`. -/
def QtInteractor_init (has_pyqt : Bool) (env : QtEnv) :
    Except String QtInteractorState :=
  if !has_pyqt then
    Except.error "Requires PyQt5"
  else
    Except.ok
      { ren_win := some env.widget_render_window
      , ren_win_renderers := [env.base_renderer]
      , iren := some env.window_interactor
      , background_color := some env.plotParams_background
      , mouse_move_observers_removed := true
      , iren_started := true
      , interactor_style := some "vtkInteractorStyleTrackballCamera"
      , axes_added := true }

end Vtki

namespace Pyvista

/-- The Python exception classes raised by the pyvista validation paths
exercised in `tests/test_plotting.py`. -/
inductive PyErr where
  | valueError
  | typeError
  | keyError
  | runtimeError
  | invalidCameraError
deriving DecidableEq, Repr

/-- A value passed as the `shape` keyword of `Plotter`: a string
descriptor such as `'2|3'`, a sequence of integers (list/tuple), or some
non-sequence object such as a set. -/
inductive ShapeArg where
  | str (horizontal : Bool) (first second : Nat)
  | seq (entries : List Int)
  | nonseq
deriving DecidableEq, Repr

/-- The validated shape of a `Plotter`: either an `r x c` grid of
subplots indexed by `(row, col)`, or the flat layout produced by a
string descriptor `'a|b'`, indexed by a single integer. -/
inductive PlShape where
  | grid (rows cols : Nat)
  | flat (count : Nat)
deriving DecidableEq, Repr

/-- Modelled from the spec: the `shape` validation in
`pyvista.Plotter.__init__`, which is not part of this repository (only
`tests/test_plotting.py::test_plotter_shape_invalid` is). Per the spec
the wrapper "validates inputs before forwarding calls": a string
descriptor `'a|b'` yields a flat layout of `a + b` subplots; any other
value must be a sequence (else `TypeError`), of length exactly 2 (else
`ValueError`), with both entries positive (else `ValueError`). -/
def validate_shape : ShapeArg → Except PyErr PlShape
  | ShapeArg.str _ a b => Except.ok (PlShape.flat (a + b))
  | ShapeArg.seq entries =>
    if entries.length ≠ 2 then
      Except.error PyErr.valueError
    else if entries.any (fun e => e ≤ 0) then
      Except.error PyErr.valueError
    else
      Except.ok (PlShape.grid (entries.getD 0 0).toNat (entries.getD 1 0).toNat)
  | ShapeArg.nonseq => Except.error PyErr.typeError

/-- The mesh display styles `add_mesh` accepts before forwarding to VTK. -/
def supported_styles : List String := ["surface", "wireframe", "points"]

/-- Modelled from the spec: the `style` validation in
`pyvista.BasePlotter.add_mesh` (reached from `pyvista.plot`), which is
not part of this repository (only
`tests/test_plotting.py::test_plot_invalid_style` is). Per the spec the
wrapper validates inputs before forwarding: a style outside the
supported set raises `ValueError` instead of being forwarded to VTK. -/
def validate_style (style : String) : Except PyErr String :=
  if style = "points" then Except.ok style
  else if style = "wireframe" then Except.ok style
  else if style = "surface" then Except.ok style
  else Except.error PyErr.valueError

/-- A value passed as the `clim` keyword of `add_mesh`: a single scalar
or an explicit `(low, high)` pair. -/
inductive ClimArg where
  | scalar (c : Int)
  | pair (lo hi : Int)
deriving DecidableEq, Repr

/-- Modelled from the spec: the `clim` keyword arrangement in
`pyvista.BasePlotter.add_mesh`, which is not part of this repository
(only `tests/test_plotting.py::test_plot_clim` is). Per the spec the
wrapper "arranges keyword arguments": a single scalar `c` becomes the
symmetric scalar range `(-c, c)` set on the mapper, and a pair is passed
through. -/
def arrange_clim : ClimArg → Int × Int
  | ClimArg.scalar c => (-c, c)
  | ClimArg.pair lo hi => (lo, hi)

/-- The string keys `Renderer.CAMERA_STR_ATTR_MAP` maps to view methods
(`view_xy`, ..., `view_isometric`) in the pyvista plotting layer. -/
def CAMERA_STR_ATTR_MAP : List (String × String) :=
  [("xy", "view_xy"), ("xz", "view_xz"), ("yz", "view_yz"),
   ("yx", "view_yx"), ("zx", "view_zx"), ("zy", "view_zy"),
   ("iso", "view_isometric")]

/-- A value assigned to `Plotter.camera_position`: a string key, a flat
sequence of scalars (a view vector), or a sequence of scalar tuples
(position / focal point / view-up). -/
inductive CameraArg where
  | str (s : String)
  | nums (xs : List Int)
  | tuples (xss : List (List Int))
deriving DecidableEq, Repr

/-- Modelled from the spec: the validation in the
`Plotter.camera_position` setter, which is not part of this repository
(only `tests/test_plotting.py::test_set_camera_position` and
`::test_set_camera_position_invalid` are). Per the spec the wrapper
validates inputs before forwarding: a string must be a key of
`CAMERA_STR_ATTR_MAP`; a flat sequence of scalars
must have exactly 3 components (a view vector); a sequence of tuples
must be exactly 3 tuples of 3 components each (position, focal point,
view-up); anything else raises `InvalidCameraError`. -/
def camera_position_set : CameraArg → Except PyErr Unit
  | CameraArg.str s =>
      if s ∈ CAMERA_STR_ATTR_MAP.map Prod.fst then
        Except.ok ()
      else Except.error PyErr.invalidCameraError
  | CameraArg.nums xs =>
      if xs.length = 3 then Except.ok ()
      else Except.error PyErr.invalidCameraError
  | CameraArg.tuples xss =>
      if xss.length ≠ 3 then Except.error PyErr.invalidCameraError
      else if xss.all (fun t => t.length == 3) then Except.ok ()
      else Except.error PyErr.invalidCameraError

/-- The named opacity transfer functions the pyvista plotting layer
recognizes. -/
def opacity_keys : List String :=
  ["linear", "linear_r", "geom", "geom_r", "sigmoid", "sigmoid_3",
   "sigmoid_4", "sigmoid_5", "sigmoid_6", "sigmoid_7", "sigmoid_8",
   "sigmoid_9", "sigmoid_10"]

/-- A value passed as the first argument of
`pyvista.opacity_transfer_function`: a name string or a numeric array. -/
inductive OpacityArg where
  | named (s : String)
  | arr (xs : List ℚ)
deriving DecidableEq, Repr

/-- Modelled from the spec: `pyvista.opacity_transfer_function`, which is
not part of this repository (only
`tests/test_plotting.py::test_opacity_transfer_functions` is). Per the
spec the wrapper validates and arranges: a recognized name yields a
mapping of exactly `n` entries; an unrecognized name raises `KeyError`;
a numeric array of length `n` is returned unchanged; a shorter array is
resampled (with or without interpolation) to exactly `n` entries; a
longer array cannot be mapped to `n` entries and raises
`RuntimeError`. Only the arities are specified, so the named mappings and
the resampling are modelled by index sampling; the `interpolate` flag
selects between interpolation schemes of the same arity, which the spec
does not distinguish, so the model's result does not depend on it. -/
def opacity_transfer_function (mapping : OpacityArg) (n : Nat)
    (interpolate : Bool) : Except PyErr (List ℚ) :=
  match mapping with
  | OpacityArg.named s =>
      if s ∈ opacity_keys then
        Except.ok ((List.range n).map (fun i : Nat => (i : ℚ)))
      else Except.error PyErr.keyError
  | OpacityArg.arr xs =>
      if xs.length = n then Except.ok xs
      else if xs.length < n then
        Except.ok ((List.range n).map (fun i => xs.getD (i * xs.length / n) 0))
      else Except.error PyErr.runtimeError

/-- The length of the mapping a successful `opacity_transfer_function`
call returns, `none` on an exception. -/
def okLength : Except PyErr (List ℚ) → Option Nat
  | Except.ok xs => some xs.length
  | Except.error _ => none

/-- A VTK light as the wrapper observes it: its switch state
(`GetSwitch`) and its intensity (`GetIntensity`). -/
structure Light where
  switch : Bool
  intensity : ℚ
deriving DecidableEq, Repr

/-- Modelled from the spec: the lights of the renderer of a freshly
constructed `Plotter` (whose constructor is not part of this repository;
only `tests/test_plotting.py::test_lighting` is). Per the spec the
wrapper performs the lighting configuration itself: on a fresh `Plotter`
every one of the renderer's `k` lights is switched on (at the default
intensity 1). -/
def fresh_lights (k : Nat) : List Light :=
  List.replicate k ⟨true, 1⟩

/-- Helper for `enable_3_lights`: walks the lights after the headlight,
switching light `i` on with intensity 1, 3/5, 1/2 for `i = 0, 1, 2` and
switching every later light off. -/
def relight : Nat → List Light → List Light
  | _, [] => []
  | i, l :: rest =>
    (if i = 0 then { l with switch := true, intensity := 1 }
     else if i = 1 then { l with switch := true, intensity := 3/5 }
     else if i = 2 then { l with switch := true, intensity := 1/2 }
     else { l with switch := false }) :: relight (i + 1) rest

/-- Modelled from the spec: `Plotter.enable_3_lights`, which is not part
of this repository (only `tests/test_plotting.py::test_lighting` is).
Per the spec the wrapper switches the headlight (first light) off,
switches exactly the next three lights on with intensities 1.0, 0.6 and
0.5, and switches every remaining light off. -/
def enable_3_lights : List Light → List Light
  | [] => []
  | headlight :: rest => { headlight with switch := false } :: relight 0 rest

/-- A value passed to `Plotter.loc_to_index`: an integer, a 2-sequence
`(row, col)`, or a non-sequence non-integer such as a set. -/
inductive LocArg where
  | int (i : Int)
  | pair (a b : Int)
  | setArg
deriving DecidableEq, Repr

/-- A value passed to `Plotter.index_to_loc`: an integer, a float, or a
tuple. -/
inductive IdxArg where
  | int (i : Int)
  | float
  | tup (a b : Int)
deriving DecidableEq, Repr

/-- A subplot location as `index_to_loc` returns it: a flat index for a
string-descriptor shape, or a `(row, col)` pair for a 2-D grid shape. -/
inductive Loc where
  | single (i : Int)
  | rowcol (r c : Int)
deriving DecidableEq, Repr

/-- Modelled from the spec: `Plotter.loc_to_index`, which is not part of
this repository (only `tests/test_plotting.py::test_index_vs_loc` is).
An integer is returned as is; a `(row, col)` pair against an `r x c`
grid becomes `row * c + col`; any other value raises `TypeError`. -/
def loc_to_index (sh : PlShape) : LocArg → Except PyErr Int
  | LocArg.int i => Except.ok i
  | LocArg.pair a b =>
      match sh with
      | PlShape.grid _ cols => Except.ok (a * cols + b)
      | PlShape.flat _ => Except.error PyErr.valueError
  | LocArg.setArg => Except.error PyErr.typeError

/-- Modelled from the spec: `Plotter.index_to_loc`, which is not part of
this repository (only `tests/test_plotting.py::test_index_vs_loc` is).
A non-integer (float or tuple) raises `TypeError`; on a
string-descriptor shape an integer is returned as is; on an `r x c`
grid shape index `i` unravels row-major into `(i / c, i % c)`. -/
def index_to_loc (sh : PlShape) : IdxArg → Except PyErr Loc
  | IdxArg.float => Except.error PyErr.typeError
  | IdxArg.tup _ _ => Except.error PyErr.typeError
  | IdxArg.int i =>
      match sh with
      | PlShape.flat _ => Except.ok (Loc.single i)
      | PlShape.grid _ cols => Except.ok (Loc.rowcol (i / cols) (i % cols))

end Pyvista

/-- C1: `QtInteractor` derives from both `QVTKRenderWindowInteractor` and
`BasePlotter`, and its `__init__` (when `has_pyqt` holds) stores the
widget's render window as `self.ren_win`, adds `self.renderer` to that
render window, stores the window's interactor as `self.iren`, sets the
background color from `plotParams['background']`, removes the
`MouseMoveEvent` observers, starts the interactor, installs a
`vtkInteractorStyleTrackballCamera` style and adds axes. -/
theorem qtInteractor_init_wires_widget (env : Vtki.QtEnv) :
    Vtki.QtInteractor_bases = ["QVTKRenderWindowInteractor", "BasePlotter"] ∧
    Vtki.QtInteractor_init true env =
      Except.ok
        { ren_win := some env.widget_render_window
        , ren_win_renderers := [env.base_renderer]
        , iren := some env.window_interactor
        , background_color := some env.plotParams_background
        , mouse_move_observers_removed := true
        , iren_started := true
        , interactor_style := some "vtkInteractorStyleTrackballCamera"
        , axes_added := true } := by
  exact ⟨rfl, rfl⟩

/-- C8: `QtInteractor.__init__` asserts `has_pyqt` first: when PyQt5 is
absent it fails with `AssertionError('Requires PyQt5')` before touching
any Qt or VTK state, and when `has_pyqt` holds the assertion branch is
unreachable (the call never produces that error). -/
theorem qtInteractor_init_asserts_pyqt (env : Vtki.QtEnv) :
    Vtki.QtInteractor_init false env = Except.error "Requires PyQt5" ∧
    (Vtki.QtInteractor_init true env).isOk = true := by
  exact ⟨rfl, rfl⟩

/-- C10 counterexample: when the PyQt5 import succeeds but the
`vtk.qt` import fails, `has_pyqt` stays `False` yet `pyqtSignal` does
NOT remain bound to the dummy fallback — it was already rebound to the
real PyQt5 object before the failure. This refutes the claim's "the
names remain bound to the dummy fallbacks" for that input. -/
theorem qt_module_init_dummy_claim_false :
    (Vtki.qt_module_init true false).has_pyqt = false ∧
    ¬ (Vtki.qt_module_init true false).pyqtSignal = Vtki.Binding.dummy := by
  decide

/-- C10 (amended): `has_pyqt` is `True` iff both imports succeed; whenever
either import fails `has_pyqt` stays `False`; if the PyQt5 import fails
both names keep their dummy fallbacks; if only the `vtk.qt` import fails,
`QVTKRenderWindowInteractor` keeps the dummy fallback while `pyqtSignal`
has already been rebound to the real PyQt5 object. -/
theorem qt_module_init_flag_iff (pyqt5_ok vtkqt_ok : Bool) :
    ((Vtki.qt_module_init pyqt5_ok vtkqt_ok).has_pyqt = true ↔
      pyqt5_ok = true ∧ vtkqt_ok = true) ∧
    (pyqt5_ok = false →
      Vtki.qt_module_init pyqt5_ok vtkqt_ok =
        ⟨false, Vtki.Binding.dummy, Vtki.Binding.dummy⟩) ∧
    (pyqt5_ok = true → vtkqt_ok = false →
      Vtki.qt_module_init pyqt5_ok vtkqt_ok =
        ⟨false, Vtki.Binding.real, Vtki.Binding.dummy⟩) := by
  cases pyqt5_ok <;> cases vtkqt_ok <;> simp [Vtki.qt_module_init]

/-- C10 witness: instantiating the amended statement at concrete import
outcomes. -/
theorem qt_module_init_flag_iff_witness :
    Vtki.qt_module_init true false =
      ⟨false, Vtki.Binding.real, Vtki.Binding.dummy⟩ :=
  (qt_module_init_flag_iff true false).2.2 rfl rfl

/-- C2: `Plotter` validates `shape` before forwarding: every sequence of
length other than 2 raises `ValueError`, every 2-sequence with a
non-positive row or column count raises `ValueError`, and every
non-sequence value raises `TypeError`. -/
theorem plotter_shape_validation (entries : List Int) (r c : Int) :
    (entries.length ≠ 2 →
      Pyvista.validate_shape (Pyvista.ShapeArg.seq entries) =
        Except.error Pyvista.PyErr.valueError) ∧
    (r ≤ 0 ∨ c ≤ 0 →
      Pyvista.validate_shape (Pyvista.ShapeArg.seq [r, c]) =
        Except.error Pyvista.PyErr.valueError) ∧
    Pyvista.validate_shape Pyvista.ShapeArg.nonseq =
      Except.error Pyvista.PyErr.typeError := by
  refine ⟨fun h => ?_, fun h => ?_, rfl⟩
  · simp [Pyvista.validate_shape, h]
  · have h2 : ([r, c].any (fun e => e ≤ 0)) = true := by
      rcases h with h | h <;> simp [List.any, h]
    simp [Pyvista.validate_shape, h2]

/-- C2 witness: the validation judgments at the test's concrete shapes
`(1,)`, `(1, 0)`, `(0, 2)` and a non-sequence. -/
theorem plotter_shape_validation_witness :
    Pyvista.validate_shape (Pyvista.ShapeArg.seq [1]) =
      Except.error Pyvista.PyErr.valueError ∧
    Pyvista.validate_shape (Pyvista.ShapeArg.seq [1, 0]) =
      Except.error Pyvista.PyErr.valueError ∧
    Pyvista.validate_shape (Pyvista.ShapeArg.seq [0, 2]) =
      Except.error Pyvista.PyErr.valueError ∧
    Pyvista.validate_shape Pyvista.ShapeArg.nonseq =
      Except.error Pyvista.PyErr.typeError :=
  ⟨(plotter_shape_validation [1] 0 0).1 (by decide),
   (plotter_shape_validation [] 1 0).2.1 (Or.inr (by decide)),
   (plotter_shape_validation [] 0 2).2.1 (Or.inl (by decide)),
   (plotter_shape_validation [] 0 0).2.2⟩

/-- C4: every style string outside the supported plotting styles makes
`pyvista.plot` raise `ValueError` instead of forwarding the call to
VTK. -/
theorem plot_invalid_style_raises (style : String)
    (h : style ∉ Pyvista.supported_styles) :
    Pyvista.validate_style style = Except.error Pyvista.PyErr.valueError := by
  simp only [Pyvista.supported_styles, List.mem_cons, List.not_mem_nil,
    or_false, not_or] at h
  obtain ⟨h1, h2, h3⟩ := h
  simp [Pyvista.validate_style, h1, h2, h3]

/-- C4 witness: the test's concrete invalid style `'not a style'`. -/
theorem plot_invalid_style_raises_witness :
    Pyvista.validate_style "not a style" =
      Except.error Pyvista.PyErr.valueError :=
  plot_invalid_style_raises "not a style" (by decide)

/-- C6: a single scalar `c` passed as `clim` is arranged into the
symmetric scalar range `(-c, c)` on the mapper; in particular `clim=10`
yields scalar range `(-10, 10)`. -/
theorem add_mesh_scalar_clim (c : Int) :
    Pyvista.arrange_clim (Pyvista.ClimArg.scalar c) = (-c, c) ∧
    Pyvista.arrange_clim (Pyvista.ClimArg.scalar 10) = (-10, 10) :=
  ⟨rfl, rfl⟩

/-- C3: assigning `Plotter.camera_position` validates the value: a tuple
sequence of the wrong length (such as a 1-element list of tuples) or one
containing a tuple with other than 3 components, a flat vector of other
than 3 scalars, and the string `'notvalid'` all raise
`InvalidCameraError`; 3-element position/focus/up triples, 3-element
view vectors and every key of `Renderer.CAMERA_STR_ATTR_MAP` are
accepted. -/
theorem camera_position_validation :
    (∀ xss : List (List Int), xss.length ≠ 3 →
      Pyvista.camera_position_set (Pyvista.CameraArg.tuples xss) =
        Except.error Pyvista.PyErr.invalidCameraError) ∧
    (∀ (xss : List (List Int)) (t : List Int), t ∈ xss → t.length ≠ 3 →
      Pyvista.camera_position_set (Pyvista.CameraArg.tuples xss) =
        Except.error Pyvista.PyErr.invalidCameraError) ∧
    (∀ xs : List Int, xs.length ≠ 3 →
      Pyvista.camera_position_set (Pyvista.CameraArg.nums xs) =
        Except.error Pyvista.PyErr.invalidCameraError) ∧
    Pyvista.camera_position_set (Pyvista.CameraArg.str "notvalid") =
      Except.error Pyvista.PyErr.invalidCameraError ∧
    (∀ pos focus up : List Int,
      pos.length = 3 → focus.length = 3 → up.length = 3 →
      Pyvista.camera_position_set (Pyvista.CameraArg.tuples [pos, focus, up]) =
        Except.ok ()) ∧
    (∀ xs : List Int, xs.length = 3 →
      Pyvista.camera_position_set (Pyvista.CameraArg.nums xs) =
        Except.ok ()) ∧
    (∀ s ∈ Pyvista.CAMERA_STR_ATTR_MAP.map Prod.fst,
      Pyvista.camera_position_set (Pyvista.CameraArg.str s) =
        Except.ok ()) := by
  refine ⟨fun xss h => ?_, fun xss t ht hlen => ?_, fun xs h => ?_, ?_,
    fun pos focus up hp hf hu => ?_, fun xs h => ?_, ?_⟩
  · simp [Pyvista.camera_position_set, h]
  · by_cases h3 : xss.length = 3
    · have hall : xss.all (fun t => t.length == 3) = false := by
        rw [List.all_eq_false]
        exact ⟨t, ht, by simpa using hlen⟩
      simp [Pyvista.camera_position_set, h3, hall]
    · simp [Pyvista.camera_position_set, h3]
  · simp [Pyvista.camera_position_set, h]
  · have hmem : "notvalid" ∉ Pyvista.CAMERA_STR_ATTR_MAP.map Prod.fst := by
      decide
    simp [Pyvista.camera_position_set, hmem]
  · simp [Pyvista.camera_position_set, hp, hf, hu]
  · simp [Pyvista.camera_position_set, h]
  · intro s hs
    simp [Pyvista.camera_position_set, hs]

/-- C3 witness: the validation judgments at the tests' concrete camera
positions, both invalid (`[(2,5),(0,0,0),(-1,-1,1)]`, `[-1,2]`,
`[(1,2,3)]`, `'notvalid'`) and valid (`[(2,5,13),(0,0,0),(-1,-1,1)]`,
`[-1,2,-5]`, `'xy'`). -/
theorem camera_position_validation_witness :
    Pyvista.camera_position_set
        (Pyvista.CameraArg.tuples [[2, 5], [0, 0, 0], [-1, -1, 1]]) =
      Except.error Pyvista.PyErr.invalidCameraError ∧
    Pyvista.camera_position_set (Pyvista.CameraArg.nums [-1, 2]) =
      Except.error Pyvista.PyErr.invalidCameraError ∧
    Pyvista.camera_position_set (Pyvista.CameraArg.tuples [[1, 2, 3]]) =
      Except.error Pyvista.PyErr.invalidCameraError ∧
    Pyvista.camera_position_set
        (Pyvista.CameraArg.tuples [[2, 5, 13], [0, 0, 0], [-1, -1, 1]]) =
      Except.ok () ∧
    Pyvista.camera_position_set (Pyvista.CameraArg.nums [-1, 2, -5]) =
      Except.ok () ∧
    Pyvista.camera_position_set (Pyvista.CameraArg.str "xy") =
      Except.ok () :=
  ⟨camera_position_validation.2.1 [[2, 5], [0, 0, 0], [-1, -1, 1]] [2, 5]
      (by decide) (by decide),
   camera_position_validation.2.2.1 [-1, 2] (by decide),
   camera_position_validation.1 [[1, 2, 3]] (by decide),
   camera_position_validation.2.2.2.2.1 [2, 5, 13] [0, 0, 0] [-1, -1, 1]
      rfl rfl rfl,
   camera_position_validation.2.2.2.2.2.1 [-1, 2, -5] rfl,
   camera_position_validation.2.2.2.2.2.2 "xy" (by decide)⟩

/-- C5: `opacity_transfer_function` returns a mapping of exactly `n`
entries for every recognized name and for every custom numeric list of
at most `n` entries, whatever `interpolate` is; a length-`n` numeric
array is returned unchanged; an unrecognized name raises `KeyError`; a
numeric array of length `2 * n` (for `n > 0`) raises `RuntimeError`. -/
theorem opacity_transfer_function_arity :
    (∀ s ∈ Pyvista.opacity_keys, ∀ (n : Nat) (interp : Bool),
      Pyvista.okLength
          (Pyvista.opacity_transfer_function (Pyvista.OpacityArg.named s) n interp) =
        some n) ∧
    (∀ (xs : List ℚ) (n : Nat) (interp : Bool), xs.length ≤ n →
      Pyvista.okLength
          (Pyvista.opacity_transfer_function (Pyvista.OpacityArg.arr xs) n interp) =
        some n) ∧
    (∀ (xs : List ℚ) (interp : Bool),
      Pyvista.opacity_transfer_function (Pyvista.OpacityArg.arr xs) xs.length interp =
        Except.ok xs) ∧
    (∀ s : String, s ∉ Pyvista.opacity_keys → ∀ (n : Nat) (interp : Bool),
      Pyvista.opacity_transfer_function (Pyvista.OpacityArg.named s) n interp =
        Except.error Pyvista.PyErr.keyError) ∧
    (∀ (xs : List ℚ) (n : Nat) (interp : Bool), 0 < n → xs.length = 2 * n →
      Pyvista.opacity_transfer_function (Pyvista.OpacityArg.arr xs) n interp =
        Except.error Pyvista.PyErr.runtimeError) := by
  refine ⟨fun s hs n interp => ?_, fun xs n interp hle => ?_,
    fun xs interp => ?_, fun s hs n interp => ?_,
    fun xs n interp hn hlen => ?_⟩
  · simp only [Pyvista.opacity_transfer_function]
    rw [if_pos hs]
    simp [Pyvista.okLength]
  · rcases eq_or_lt_of_le hle with heq | hlt
    · simp [Pyvista.opacity_transfer_function, heq, Pyvista.okLength]
    · have hne : xs.length ≠ n := Nat.ne_of_lt hlt
      simp [Pyvista.opacity_transfer_function, hne, hlt, Pyvista.okLength]
  · simp [Pyvista.opacity_transfer_function]
  · simp [Pyvista.opacity_transfer_function, hs]
  · have h1 : xs.length ≠ n := by omega
    have h2 : ¬ xs.length < n := by omega
    simp [Pyvista.opacity_transfer_function, h1, h2]

/-- C5 witness: the arity judgments at the test's concrete inputs with
`n = 4`: the names `'linear'` and `'sigmoid_10'`, a 2-element custom
list with and without interpolation, a length-4 array returned
unchanged, the unknown name `'foo'`, and a length-8 array. -/
theorem opacity_transfer_function_arity_witness :
    Pyvista.okLength
        (Pyvista.opacity_transfer_function
          (Pyvista.OpacityArg.named "linear") 4 true) = some 4 ∧
    Pyvista.okLength
        (Pyvista.opacity_transfer_function
          (Pyvista.OpacityArg.named "sigmoid_10") 4 true) = some 4 ∧
    Pyvista.okLength
        (Pyvista.opacity_transfer_function
          (Pyvista.OpacityArg.arr [0, 1]) 4 true) = some 4 ∧
    Pyvista.okLength
        (Pyvista.opacity_transfer_function
          (Pyvista.OpacityArg.arr [0, 1]) 4 false) = some 4 ∧
    Pyvista.opacity_transfer_function
        (Pyvista.OpacityArg.arr [3, 5, 6, 10]) 4 true =
      Except.ok [3, 5, 6, 10] ∧
    Pyvista.opacity_transfer_function (Pyvista.OpacityArg.named "foo") 4 true =
      Except.error Pyvista.PyErr.keyError ∧
    Pyvista.opacity_transfer_function
        (Pyvista.OpacityArg.arr [0, 0, 0, 0, 1, 1, 1, 1]) 4 true =
      Except.error Pyvista.PyErr.runtimeError :=
  ⟨opacity_transfer_function_arity.1 "linear" (by decide) 4 true,
   opacity_transfer_function_arity.1 "sigmoid_10" (by decide) 4 true,
   opacity_transfer_function_arity.2.1 [0, 1] 4 true (by decide),
   opacity_transfer_function_arity.2.1 [0, 1] 4 false (by decide),
   opacity_transfer_function_arity.2.2.1 [3, 5, 6, 10] true,
   opacity_transfer_function_arity.2.2.2.1 "foo" (by decide) 4 true,
   opacity_transfer_function_arity.2.2.2.2 [0, 0, 0, 0, 1, 1, 1, 1] 4 true
      (by decide) (by decide)⟩

/-- Helper: `relight` switches every light off once the index is past 2. -/
theorem relight_replicate_off (m j : Nat) (h : 3 ≤ j) :
    Pyvista.relight j (List.replicate m ⟨true, 1⟩) =
      List.replicate m ⟨false, 1⟩ := by
  induction m generalizing j with
  | zero => simp [Pyvista.relight]
  | succ m ih =>
    have h0 : j ≠ 0 := by omega
    have h1 : j ≠ 1 := by omega
    have h2 : j ≠ 2 := by omega
    simp only [List.replicate_succ, Pyvista.relight, if_neg h0, if_neg h1,
      if_neg h2, ih (j + 1) (by omega), List.cons.injEq, and_true]

/-- C7: the wrapper performs the lighting configuration itself: on a
fresh `Plotter` every light is switched on, and `enable_3_lights`
switches the headlight (first light) off, switches exactly the next
three lights on with intensities 1.0, 0.6 and 0.5, and switches every
remaining light off. Shown for a renderer with `m + 4` lights. -/
theorem lighting_enable_3_lights (m : Nat) :
    (Pyvista.fresh_lights (m + 4)).all (fun l => l.switch) = true ∧
    Pyvista.enable_3_lights (Pyvista.fresh_lights (m + 4)) =
      ⟨false, 1⟩ :: ⟨true, 1⟩ :: ⟨true, 3/5⟩ :: ⟨true, 1/2⟩ ::
        List.replicate m ⟨false, 1⟩ := by
  constructor
  · simp only [Pyvista.fresh_lights, List.all_eq_true]
    intro l hl
    rw [(List.eq_of_mem_replicate hl : l = ⟨true, 1⟩)]
  · have hrep : List.replicate (m + 4) (⟨true, 1⟩ : Pyvista.Light) =
        ⟨true, 1⟩ :: ⟨true, 1⟩ :: ⟨true, 1⟩ :: ⟨true, 1⟩ ::
          List.replicate m ⟨true, 1⟩ := by
      rw [Nat.add_comm, List.replicate_add]
      rfl
    show Pyvista.enable_3_lights
        (List.replicate (m + 4) ⟨true, 1⟩) = _
    rw [hrep]
    simp [Pyvista.enable_3_lights, Pyvista.relight,
      relight_replicate_off m 3 (by omega)]

/-- C9: for a 2-D `(r, c)` grid, `index_to_loc` unravels an index
row-major into `(i / c, i % c)` and `loc_to_index` maps that location
back to `i` for every `i < r * c`; `loc_to_index` is the identity on
integer indices for any shape; for a string-descriptor shape both are
the identity on integers; `loc_to_index` raises `TypeError` on a set and
`index_to_loc` raises `TypeError` on a float or a tuple. -/
theorem index_vs_loc (r c i : Nat) (sh : Pyvista.PlShape) (n : Nat)
    (j a b : Int) (h : i < r * c) :
    Pyvista.index_to_loc (Pyvista.PlShape.grid r c) (Pyvista.IdxArg.int i) =
      Except.ok (Pyvista.Loc.rowcol ((i : Int) / (c : Int)) ((i : Int) % (c : Int))) ∧
    Pyvista.loc_to_index (Pyvista.PlShape.grid r c)
        (Pyvista.LocArg.pair ((i : Int) / (c : Int)) ((i : Int) % (c : Int))) =
      Except.ok (i : Int) ∧
    Pyvista.loc_to_index sh (Pyvista.LocArg.int j) = Except.ok j ∧
    Pyvista.index_to_loc (Pyvista.PlShape.flat n) (Pyvista.IdxArg.int j) =
      Except.ok (Pyvista.Loc.single j) ∧
    Pyvista.loc_to_index sh Pyvista.LocArg.setArg =
      Except.error Pyvista.PyErr.typeError ∧
    Pyvista.index_to_loc sh Pyvista.IdxArg.float =
      Except.error Pyvista.PyErr.typeError ∧
    Pyvista.index_to_loc sh (Pyvista.IdxArg.tup a b) =
      Except.error Pyvista.PyErr.typeError := by
  refine ⟨rfl, ?_, rfl, rfl, ?_, ?_, ?_⟩
  · have harith : (i : Int) / (c : Int) * (c : Int) + (i : Int) % (c : Int) =
        (i : Int) := by
      rw [mul_comm]
      exact Int.ediv_add_emod _ _
    simp [Pyvista.loc_to_index, harith]
  · cases sh <;> rfl
  · cases sh <;> rfl
  · cases sh <;> rfl

/-- C9 witness: the test's concrete `(2, 3)` grid and `'2|3'` flat
layout: index 4 unravels to `(1, 1)` and back, integer locations are
identities, and the set/float/tuple inputs raise `TypeError`. -/
theorem index_vs_loc_witness :
    Pyvista.index_to_loc (Pyvista.PlShape.grid 2 3) (Pyvista.IdxArg.int 4) =
      Except.ok (Pyvista.Loc.rowcol 1 1) ∧
    Pyvista.loc_to_index (Pyvista.PlShape.grid 2 3) (Pyvista.LocArg.pair 1 1) =
      Except.ok 4 ∧
    Pyvista.loc_to_index (Pyvista.PlShape.flat 5) (Pyvista.LocArg.int 4) =
      Except.ok 4 ∧
    Pyvista.index_to_loc (Pyvista.PlShape.flat 5) (Pyvista.IdxArg.int 4) =
      Except.ok (Pyvista.Loc.single 4) ∧
    Pyvista.loc_to_index (Pyvista.PlShape.flat 5) Pyvista.LocArg.setArg =
      Except.error Pyvista.PyErr.typeError ∧
    Pyvista.index_to_loc (Pyvista.PlShape.flat 5) Pyvista.IdxArg.float =
      Except.error Pyvista.PyErr.typeError ∧
    Pyvista.index_to_loc (Pyvista.PlShape.flat 5) (Pyvista.IdxArg.tup 1 2) =
      Except.error Pyvista.PyErr.typeError := by
  exact index_vs_loc 2 3 4 (Pyvista.PlShape.flat 5) 5 4 1 2 (by decide)
